import Mathlib

/-!
Verification development for the steamcmd-wrapper utility
(single source file `steamcmd-wrapper.py`).

The Python source is shallowly embedded below.  Strings are modelled as
`List Char` (ASCII-exact; the single Unicode-dependent step, NFKD
normalisation followed by ASCII re-encoding in `sanitize_filename`, is
modelled as dropping non-ASCII code points — exact on ASCII input, and every
output of the Python step is itself an ASCII string, so all downstream steps
are exact).  The filesystem is modelled as the list of existing directory
paths, the settings file as a parsed-or-failed state, the HTML soup as a
tree of element/text nodes, and the progress queue as the list of posted
update dictionaries.
-/

namespace SteamWrapper

/-! ### Name sanitizer (`sanitize_filename`, source lines 30-81) -/

/-- The character class of the regex `[\\/:*?"<>|\t\n\r\f\v]` (line 59). -/
def invalidChar (c : Char) : Bool :=
  c = '\\' || c = '/' || c = ':' || c = '*' || c = '?' || c = '\"' ||
  c = '<' || c = '>' || c = '|' || c = '\t' || c = '\n' || c = '\r' ||
  c = '\x0c' || c = '\x0b'

/-- `re.sub(r'[...]+', '_', name)`: each maximal run of invalid characters is
replaced by a single underscore.  `prev` records whether the previous
character was part of such a run. -/
def replaceRunsAux (prev : Bool) : List Char → List Char
  | [] => []
  | c :: rest =>
    if invalidChar c then
      (if prev then ([] : List Char) else ['_']) ++ replaceRunsAux true rest
    else
      c :: replaceRunsAux false rest

def replaceRuns (s : List Char) : List Char := replaceRunsAux false s

/-- `unicodedata.category(c)[0] == "C"` for ASCII characters: the control
characters U+0000–U+001F and U+007F (category Cc). -/
def isCtrl (c : Char) : Bool := c.toNat < 32 || c.toNat = 127

/-- Characters stripped by `str.strip('. ')`. -/
def isDotSpace (c : Char) : Bool := c = '.' || c = ' '

/-- `str.strip('. ')`: drop leading and trailing dots/spaces (lines 63, 75). -/
def stripDotSpace (s : List Char) : List Char :=
  ((s.dropWhile isDotSpace).reverse.dropWhile isDotSpace).reverse

/-- ASCII upper-casing, the effect of `str.upper()` on ASCII strings. -/
def upperA (c : Char) : Char :=
  if 'a' ≤ c && c ≤ 'z' then Char.ofNat (c.toNat - 32) else c

/-- The `reserved_names` set of lines 66-68. -/
def reservedNames : List (List Char) :=
  ["CON", "PRN", "AUX", "NUL", "COM1", "COM2", "COM3", "COM4",
   "COM5", "COM6", "COM7", "COM8", "COM9", "LPT1", "LPT2",
   "LPT3", "LPT4", "LPT5", "LPT6", "LPT7", "LPT8", "LPT9"].map String.data

/-- NFKD normalisation followed by `.encode('ascii','ignore')` (line 52),
modelled as dropping non-ASCII code points (exact on ASCII input; the Python
step always produces a pure-ASCII string).  The `except` fallback of
lines 53-55 is unreachable for `str` input and is not modelled. -/
def normalizeAscii (s : List Char) : List Char := s.filter (fun c => c.toNat < 128)

/-- Lines 52-63: normalisation, invalid-character replacement,
control-character removal and dot/space stripping. -/
def preStrip (name : List Char) : List Char :=
  stripDotSpace ((replaceRuns (normalizeAscii name)).filter (fun c => !isCtrl c))

/-- Everything before the length-truncation step: `preStrip` followed by the
reserved-name suffix of lines 66-70. -/
def sanitizeCore (name : List Char) : List Char :=
  if (preStrip name).map upperA ∈ reservedNames then preStrip name ++ "_mod".data
  else preStrip name

/-- The length-truncation step of lines 72-75: cap at 100, re-stripping
trailing dots/spaces. -/
def sanitizeTrunc (name : List Char) : List Char :=
  if (sanitizeCore name).length > 100 then stripDotSpace ((sanitizeCore name).take 100)
  else sanitizeCore name

/-- `sanitize_filename` (lines 30-81). -/
def sanitize_filename (name : List Char) : List Char :=
  if name = [] then "Unnamed Mod".data
  else if sanitizeTrunc name = [] then "Unnamed Mod".data
  else sanitizeTrunc name

/-- `sanitize_filename` on Lean strings (used by the orchestrator model). -/
def sanitizeStr (s : String) : String := ⟨sanitize_filename s.data⟩

/-! ### Settings store (`get_default_settings`, `load_settings`, `save_settings`,
source lines 85-145)

Settings are flat JSON objects; they are modelled as ordered association
lists (Python dicts preserve insertion order).  The values occurring in the
defaults are all strings, so values are modelled as `String`. -/

def get_default_settings : List (String × String) :=
  [("steamcmd_path", ""),
   ("default_download_dir", ""),
   ("app_id", "294100"),
   ("user_agent", "Mozilla/5.0 (Windows NT 10.0; Win64; x64) AppleWebKit/537.36 (KHTML, like Gecko) Chrome/91.0.4472.124 Safari/537.36")]

/-- Python `d.get(k)` / `d[k]` lookup on an ordered association list. -/
def dget (d : List (String × String)) (k : String) : Option String :=
  (d.find? (fun p => p.1 == k)).map (fun p => p.2)

/-- Python `base.copy(); .update(upd)`: existing keys are overwritten in
place (keeping their position), new keys are appended in `upd` order. -/
def dictUpdate (base upd : List (String × String)) : List (String × String) :=
  base.map (fun p =>
      match dget upd p.1 with
      | some v => (p.1, v)
      | none => p)
    ++ upd.filter (fun p => (dget base p.1).isNone)

/-- Exceptions that `load_settings` raises to its caller: the clause
`except (json.JSONDecodeError, IOError, TypeError)` at line 118 does not
catch plain `ValueError` (`json.JSONDecodeError` is a subclass of
`ValueError`, not the other way round) nor `UnicodeDecodeError` (a
`ValueError`, not an `IOError`). -/
inductive PyExc where
  | valueError
  | unicodeDecodeError
deriving DecidableEq

/-- The state of the settings file as `load_settings` can observe it
(lines 104-128): missing file; bytes that are not valid UTF-8 (`f.read()`
raises `UnicodeDecodeError`, uncaught); empty content; nonempty content on
which `json.loads` raises `json.JSONDecodeError` (caught); an open/read
`IOError` (caught); content parsing to a JSON object; to a JSON string
(`app_settings.update` on a nonempty string raises `ValueError`, uncaught —
on the empty string it is a no-op); or to another JSON scalar
(number/bool/null, where `update` raises `TypeError`, caught).
`json.loads`/`json.dump` round-tripping is a library property; the file is
modelled post-parse.  JSON arrays are not modelled: `save_settings` cannot
produce them, and `update` on an array merges pair lists or raises
`TypeError`/`ValueError` depending on the elements. -/
inductive SettingsFile where
  | missing
  | nonUtf8
  | empty
  | invalid
  | ioError
  | parsed (d : List (String × String))
  | parsedStr (s : String)
  | parsedScalar

/-- `load_settings` (lines 95-128): `.ok` is a normal return (the settings
the global is left with), `.error` an exception propagating to the caller
(in the nonempty-string case the global is left at the pristine
`defaults.copy()` of line 115 when `update` raises; only the propagating
exception is modelled).  The caught failure paths degrade to the defaults;
a parsed object yields the defaults overridden key-by-key. -/
def load_settings : SettingsFile → Except PyExc (List (String × String))
  | .missing => .ok get_default_settings
  | .nonUtf8 => .error .unicodeDecodeError
  | .empty => .ok get_default_settings
  | .invalid => .ok get_default_settings
  | .ioError => .ok get_default_settings
  | .parsed d => .ok (dictUpdate get_default_settings d)
  | .parsedStr s => if s = "" then .ok get_default_settings else .error .valueError
  | .parsedScalar => .ok get_default_settings

/-- `save_settings` (lines 130-145), success path: the file afterwards holds
exactly the serialised dictionary (the `IOError` path leaves the file in an
unspecified state and reports; it is not modelled). -/
def save_settings (d : List (String × String)) : SettingsFile := .parsed d

/-! ### Workshop scraper (`scrape_mod_details`, source lines 267-398)

The parsed HTML soup is modelled as a tree of element and text nodes; an
element carries its tag, the (multi-valued) `class` attribute and an
optional `href`.  `Html`/`HtmlList` are mutually inductive so that all
traversals are structurally recursive and kernel-evaluable. -/

mutual
inductive Html where
  | elem (tag : String) (classes : List String) (href : Option String) (children : HtmlList)
  | text (s : String)
inductive HtmlList where
  | nil
  | cons (h : Html) (t : HtmlList)
end

def HtmlList.ofList : List Html → HtmlList
  | [] => .nil
  | n :: t => .cons n (HtmlList.ofList t)

def tagOf : Html → String
  | .elem t _ _ _ => t
  | .text _ => ""

def classesOf : Html → List String
  | .elem _ c _ _ => c
  | .text _ => []

def hrefOf : Html → Option String
  | .elem _ _ h _ => h
  | .text _ => none

def childrenOf : Html → HtmlList
  | .elem _ _ _ ch => ch
  | .text _ => .nil

/- All nodes of a forest in document (pre-)order, each node followed by its
descendants: the order of BeautifulSoup's `find_all` / `next_element`
traversal. -/
mutual
def findAllNodes : HtmlList → List Html
  | .nil => []
  | .cons n t => nodeWithDescendants n ++ findAllNodes t
def nodeWithDescendants : Html → List Html
  | .text s => [.text s]
  | .elem tg c h ch => .elem tg c h ch :: findAllNodes ch
end

/-- The descendants of a node (excluding itself), as searched by
`container.find(...)` (`recursive=True`). -/
def descendants (n : Html) : List Html := findAllNodes (childrenOf n)

/- The text fragments of a subtree in document order (BeautifulSoup's
`strings`). -/
mutual
def textFragments : Html → List String
  | .text s => [s]
  | .elem _ _ _ ch => textFragmentsList ch
def textFragmentsList : HtmlList → List String
  | .nil => []
  | .cons n t => textFragments n ++ textFragmentsList t
end

/-- Characters stripped by Python `str.strip()` (ASCII whitespace). -/
def isPySpace (c : Char) : Bool :=
  c = ' ' || c = '\t' || c = '\n' || c = '\r' || c = '\x0c' || c = '\x0b'

def pyStrip (s : List Char) : List Char :=
  ((s.dropWhile isPySpace).reverse.dropWhile isPySpace).reverse

def pyStripStr (s : String) : String := ⟨pyStrip s.data⟩

/-- `get_text(strip=True)`: every text fragment stripped, then concatenated. -/
def getTextStrip (n : Html) : String := String.join ((textFragments n).map pyStripStr)

/-- `.text` followed by `.strip()` (fallback strategy, line 365): the
fragments concatenated first, the whole stripped afterwards. -/
def getTextThenStrip (n : Html) : String := pyStripStr (String.join (textFragments n))

/-- `\w` for ASCII: the word characters of the regex module. -/
def isWordChar (c : Char) : Bool := c.isAlphanum || c = '_'

/-- A `\b` word boundary holds after a word character at this position. -/
def boundaryAfter : List Char → Bool
  | [] => true
  | c :: _ => !isWordChar c

/-- `re.search` of `stem` followed by `\b`, at any position of `s` (all the
stems used end in a word character, so `\b` means: next char non-word or
end of string). -/
def searchStemB (stem : List Char) : List Char → Bool
  | [] => stem.isEmpty
  | c :: t => (stem.isPrefixOf (c :: t) && boundaryAfter ((c :: t).drop stem.length))
      || searchStemB stem t

/-- Plain substring search (`'pat' in s` / an unanchored literal regex). -/
def containsSubAux (pat : List Char) : List Char → Bool
  | [] => pat.isEmpty
  | c :: t => pat.isPrefixOf (c :: t) || containsSubAux pat t

def containsSub (pat s : String) : Bool := containsSubAux pat.data s.data

/-- ASCII lower-casing (for the `re.IGNORECASE` title match). -/
def lowerA (c : Char) : Char :=
  if 'A' ≤ c && c ≤ 'Z' then Char.ofNat (c.toNat + 32) else c

/-- `re.compile(r'(workshopItem|collectionItem)\b')` applied to one class
token (BeautifulSoup matches a regex attribute filter against each class
token of the multi-valued `class` attribute). -/
def primaryClassToken (cls : String) : Bool :=
  searchStemB "workshopItem".data cls.data || searchStemB "collectionItem".data cls.data

/-- `re.compile(r'(workshopItemTitle|item_title|title)\b', re.IGNORECASE)`
applied to one class token. -/
def titleClassToken (cls : String) : Bool :=
  let l := cls.data.map lowerA
  searchStemB "workshopitemtitle".data l || searchStemB "item_title".data l
    || searchStemB "title".data l

/-- A div matching the primary container pattern (line 309). -/
def isPrimaryContainer (n : Html) : Bool :=
  tagOf n = "div" && (classesOf n).any primaryClassToken

/-- A div with the literal class `item` (line 312, secondary container
search). -/
def isGenericItemDiv (n : Html) : Bool :=
  tagOf n = "div" && (classesOf n).contains "item"

/-- Lines 309-312: `find_all` of the primary container pattern, falling back
to `find_all('div', class_='item')` when it finds nothing. -/
def primaryContainers (doc : HtmlList) : List Html :=
  let cs := (findAllNodes doc).filter isPrimaryContainer
  if cs.isEmpty then (findAllNodes doc).filter isGenericItemDiv else cs

/-- The link filter of line 320: an `a` whose `href` matches
`re.compile(r'/sharedfiles/filedetails/\?id=')`. -/
def isModLink (n : Html) : Bool :=
  tagOf n = "a" &&
    (match hrefOf n with
     | some h => containsSub "/sharedfiles/filedetails/?id=" h
     | none => false)

/-- The title filter of line 331: a `div` whose class matches the title
pattern. -/
def isTitleDiv (n : Html) : Bool :=
  tagOf n = "div" && (classesOf n).any titleClassToken

/-- `re.search(r'id=(\d+)', s)`: the digits captured at the leftmost
occurrence of `id=` followed by at least one digit. -/
def extractIdAux : List Char → Option (List Char)
  | [] => none
  | c :: t =>
    let ds := ((c :: t).drop 3).takeWhile Char.isDigit
    if "id=".data.isPrefixOf (c :: t) && !ds.isEmpty then some ds
    else extractIdAux t

def extractId (href : String) : Option String :=
  (extractIdAux href.data).map (fun l => ⟨l⟩)

def placeholderPfx : String := "Name not found"

/-- The synthesized placeholder name (line 341). -/
def placeholderName (mid : String) : String := placeholderPfx ++ " (" ++ mid ++ ")"

/-- `mod_name.startswith(placeholder_prefix)` (lines 345-347). -/
def isPlaceholder (nm : String) : Bool := placeholderPfx.data.isPrefixOf nm.data

/-- The store/update rule of lines 343-348: add a new id, or replace the
stored name when it is a placeholder and the new name is not. -/
def insertEntry (d : List (String × String)) (mid nm : String) : List (String × String) :=
  match dget d mid with
  | none => d ++ [(mid, nm)]
  | some ex =>
    if isPlaceholder ex && !isPlaceholder nm then
      d.map (fun p => if p.1 == mid then (p.1, nm) else p)
    else d

/-- Lines 317-341: extract the (id, name) candidate of one container, if
any: first matching link, id from its href, title div or the link's own
text, placeholder when no name was recovered. -/
def extractCandidate (c : Html) : Option (String × String) :=
  match (descendants c).find? isModLink with
  | none => none
  | some link =>
    match extractId ((hrefOf link).getD "") with
    | none => none
    | some mid =>
      let nm :=
        match (descendants c).find? isTitleDiv with
        | some nameEl => getTextStrip nameEl
        | none => getTextStrip link
      let nm := if nm = "" then placeholderName mid else nm
      some (mid, nm)

/-- The primary scraping loop (lines 317-348) over the container list. -/
def buildDict (containers : List Html) (d : List (String × String)) :
    List (String × String) :=
  containers.foldl
    (fun d c =>
      match extractCandidate c with
      | none => d
      | some (mid, nm) => insertEntry d mid nm) d

/-- The fallback link filter of line 357. -/
def isFallbackLink (n : Html) : Bool :=
  tagOf n = "a" &&
    (match hrefOf n with
     | some h => containsSub "https://steamcommunity.com/sharedfiles/filedetails/?id=" h
     | none => false)

/- Document-order node list, each node paired with whether it has an
ancestor `div` of class `collectioninfo` (for the `find_parent` check of
line 369). -/
mutual
def flatWithColl (inColl : Bool) : Html → List (Html × Bool)
  | .text s => [(.text s, inColl)]
  | .elem tg c h ch =>
    (.elem tg c h ch, inColl) ::
      flatListWithColl (inColl || (tg == "div" && c.contains "collectioninfo")) ch
def flatListWithColl (inColl : Bool) : HtmlList → List (Html × Bool)
  | .nil => []
  | .cons n t => flatWithColl inColl n ++ flatListWithColl inColl t
end

/-- An exact-class `workshopItemTitle` div (the `find_next` filter of
line 364). -/
def isExactTitleDiv (n : Html) : Bool :=
  tagOf n = "div" && (classesOf n).contains "workshopItemTitle"

/-- The fallback scraping loop (lines 354-376): walk the whole document in
order; at each matching link, take the next title div anywhere after it,
skip the collection's own link heuristically, and apply the same dictionary
update rule. -/
def fallbackLoop (isUrl : Bool) (src : String) :
    List (Html × Bool) → List (String × String) → List (String × String)
  | [], d => d
  | (n, inColl) :: rest, d =>
    if isFallbackLink n then
      match extractId ((hrefOf n).getD "") with
      | none => fallbackLoop isUrl src rest d
      | some mid =>
        let nm :=
          match (rest.map (fun p => p.1)).find? isExactTitleDiv with
          | some el => getTextThenStrip el
          | none => placeholderName mid
        if isUrl && containsSub ("id=" ++ mid) src && inColl then
          fallbackLoop isUrl src rest d
        else
          fallbackLoop isUrl src rest (insertEntry d mid nm)
    else fallbackLoop isUrl src rest d

/-- `int(...)` on the extracted (all-digit) id strings. -/
def strToNat (s : String) : Nat :=
  s.data.foldl (fun n c => n * 10 + (c.toNat - 48)) 0

/-- The sort key order of line 379: ascending numeric id value. -/
def entryLe (a b : String × String) : Prop := strToNat a.1 ≤ strToNat b.1

instance : DecidableRel entryLe :=
  fun a b => inferInstanceAs (Decidable (strToNat a.1 ≤ strToNat b.1))

instance : IsTotal (String × String) entryLe :=
  ⟨fun a b => Nat.le_total (strToNat a.1) (strToNat b.1)⟩

instance : IsTrans (String × String) entryLe :=
  ⟨fun _ _ _ h h' => Nat.le_trans h h'⟩

/-- `sorted(mod_details_dict.items(), key=lambda item: int(item[0]))`
(line 379): a stable sort by numeric id. -/
def sortEntries (d : List (String × String)) : List (String × String) :=
  List.insertionSort entryLe d

/-- The dictionary produced by the two scraping strategies (lines 306-376):
the primary pass over the containers, and — only when both the dictionary
and the container list are empty (`not mod_details_dict and not
mod_containers`, line 354) — the whole-document fallback. -/
def scrapeDict (isUrl : Bool) (src : String) (doc : HtmlList) :
    List (String × String) :=
  if (buildDict (primaryContainers doc) []).isEmpty
      && (primaryContainers doc).isEmpty then
    fallbackLoop isUrl src (flatListWithColl false doc) []
  else buildDict (primaryContainers doc) []

/-- The parsing part of `scrape_mod_details` on an already-obtained HTML
document (lines 304-381).  `isUrl`/`src` feed the fallback's
collection-link skip, which reads the original `source` string. -/
def scrapeHtml (isUrl : Bool) (src : String) (doc : HtmlList) :
    List (String × String) :=
  sortEntries (scrapeDict isUrl src doc)

/-- The error taxonomy of the `except` clauses (lines 384-398). -/
inductive ScrapeError where
  | network
  | config
  | scraping

/-- The `source_type` argument: the two recognised kinds plus anything
else (which raises `ValueError` at line 302, caught at line 389). -/
inductive SourceKind where
  | url
  | html
  | other (s : String)

/-- `scrape_mod_details` (lines 267-398).  `net` is the outcome of the HTTP
fetch for a URL source: `none` models any `requests` failure including a
non-2xx `raise_for_status` (caught at line 384), `some doc` the parsed
response body.  `pasted` is the parsed document for an HTML source.  Every
exception is caught inside the function; the result is always a pair of the
scraped list and an optional error report. -/
def scrape_mod_details (net : Option HtmlList) (srcUrl : String)
    (pasted : HtmlList) (kind : SourceKind) :
    List (String × String) × Option ScrapeError :=
  match kind with
  | .other _ => ([], some .config)
  | .url =>
    match net with
    | none => ([], some .network)
    | some doc => (scrapeHtml true srcUrl doc, none)
  | .html => (scrapeHtml false srcUrl pasted, none)

/-! ### Download orchestrator (`download_mods_with_steamcmd`, source
lines 401-648)

The progress queue is modelled as the list of posted update dictionaries.
The filesystem is the list of existing directory paths (`os.path.join`
modelled with a `/` separator; `os.path.expanduser` as the identity).
Environment-dependent steps — the SteamCMD executable resolution probing of
lines 442-465, `os.makedirs`, `subprocess.Popen` and `shutil.rmtree` — are
abstracted as inputs in `Env`.  `shutil.move` is modelled on its success
path (a move failure is environmental; it would count the item as failed,
like the missing-source branch). -/

/-- A progress-queue dictionary (§ the `progress_queue.put` calls):
status / current_mod / overall_value / error / finished / final_message /
show_warning. -/
structure Update where
  status : Option String
  currentMod : Option String
  overallValue : Option Nat
  error : Option String
  finished : Bool
  finalMessage : Option String
  showWarning : Bool
deriving DecidableEq, Repr

/-- An update carrying only status and optionally overall/current fields. -/
def statusUpd (s : String) (ov : Option Nat) (cm : Option String) : Update :=
  ⟨some s, cm, ov, none, false, none, false⟩

/-- A terminal error update: `{'error': e, 'finished': True}`. -/
def errorUpd (e : String) : Update := ⟨none, none, none, some e, true, none, false⟩

/-- The final summary update of lines 642-648. -/
def finalUpd (s : String) (total : Nat) (warn : Bool) : Update :=
  ⟨some s, none, some total, none, true, some s, warn⟩

/-- The environment of one orchestrator run. -/
structure Env where
  /-- `app_settings["app_id"]` (with the default filled in, line 435). -/
  appId : String
  /-- The resolved SteamCMD executable (the probing of lines 442-465). -/
  steamcmdExec : String
  /-- Whether `os.makedirs` of the temp directory succeeds (lines 476-484). -/
  mkdirOk : Bool
  /-- The `subprocess` outcome: `none` models `FileNotFoundError` from
  `Popen` (line 545), `some (returncode, stdout, stderr)` a completed run. -/
  popen : Option (Int × String × String)
  /-- Whether `shutil.rmtree` of the temp directory succeeds (line 633). -/
  rmtreeOk : Bool

/-- The error-message refinement of lines 528-536. -/
def steamcmdFailMessage (exe : String) (rc : Int) (out err : String) : String :=
  let base := "SteamCMD process failed (Code: " ++ toString rc ++ ")."
  if containsSub "No such file or directory" err || containsSub "command not found" err
      || rc == 127 then
    base ++ "\n\n'" ++ exe ++ "' was not found or is not executable. Check Settings or PATH."
  else if containsSub "available CPlatform instance" out
      || containsSub "connect to Steam" err then
    base ++ "\n\nSteamCMD failed to connect or initialize. Check network or SteamCMD install."
  else
    base ++ "\n\nCheck console logs for details.\nStderr: " ++ pyStripStr err

/-- The collision-handling `while` loop of lines 590-607, over target folder
names (`ex nm` = `os.path.exists` of the corresponding path).  Returns the
final target name and whether the safety break incremented the failure
counter.  The `fuel` parameter makes the recursion structural; the loop body
itself runs at most 10 times (the counter check breaks at `> 10`), so the
exported entry point `collisionLoop` supplies fuel 10 and the fuel-exhausted
clause is unreachable.  When `base_mid` does not exist the loop's next
condition check exits at once; that re-check is inlined as the direct
`(t1, false)` return. -/
def collisionAux (ex : String → Bool) (base mid : String) :
    Nat → String → Nat → String × Bool
  | 0, target, _ => (target, false)
  | fuel + 1, target, c =>
    if ex target then
      let t1 := base ++ "_" ++ mid
      if ex t1 then
        let t2 := base ++ "_" ++ mid ++ "_" ++ toString c
        if c + 1 > 10 then (t2, true)
        else collisionAux ex base mid fuel t2 (c + 1)
      else (t1, false)
    else (target, false)

/-- The collision loop as entered at line 590: initial target the sanitized
base name, `collision_counter = 1`. -/
def collisionLoop (ex : String → Bool) (base mid : String) : String × Bool :=
  collisionAux ex base mid 10 base 1

/-- `shutil.move(src, tgt)` on the directory model. -/
def moveDir (fs : List String) (src tgt : String) : List String :=
  tgt :: fs.erase src

/-- The expected source path of a downloaded item (line 580):
`<tempdir>/steamapps/workshop/content/<app_id>/<mod_id>`. -/
def sourceModPath (tempDir appId mid : String) : String :=
  tempDir ++ "/steamapps/workshop/content/" ++ appId ++ "/" ++ mid

/-- `os.path.exists(os.path.join(instAbs, nm))` on the directory model. -/
def existsAt (fs : List String) (instAbs nm : String) : Bool :=
  fs.contains (instAbs ++ "/" ++ nm)

/-- One iteration of the post-download loop body (lines 579-625), without
the progress update: collision handling, the `continue` skip, the move (or
the missing-source failure).  Returns the new filesystem and the deltas of
the moved and failed counters. -/
def processOne (fs : List String) (instAbs tempDir appId mid mname : String) :
    List String × Nat × Nat :=
  let source := sourceModPath tempDir appId mid
  let base := sanitizeStr mname
  let r := collisionLoop (existsAt fs instAbs) base mid
  let failed0 := if r.2 then 1 else 0
  if existsAt fs instAbs r.1 then (fs, 0, failed0)
  else if fs.contains source then
    (moveDir fs source (instAbs ++ "/" ++ r.1), 1, failed0)
  else (fs, 0, failed0 + 1)

/-- The post-download loop of lines 571-625: per-item progress update, then
the move/rename of `processOne`, accumulating the counters. -/
def processItems (instAbs tempDir appId : String) (total : Nat) :
    List (String × String) → Nat → List String →
    List Update × List String × Nat × Nat
  | [], _, fs => ([], fs, 0, 0)
  | (mid, mname) :: rest, i, fs =>
    let upd := statusUpd ("Processing " ++ toString (i + 1) ++ "/" ++ toString total)
      (some i) (some (mname ++ " (" ++ mid ++ ")"))
    let r1 := processOne fs instAbs tempDir appId mid mname
    let r2 := processItems instAbs tempDir appId total rest (i + 1) r1.1
    (upd :: r2.1, r2.2.1, r1.2.1 + r2.2.2.1, r1.2.2 + r2.2.2.2)

/-- `shutil.rmtree`: removes the directory and everything below it. -/
def rmtreeModel (fs : List String) (root : String) : List String :=
  fs.filter (fun p => !(root.isPrefixOf p))

/-- `download_mods_with_steamcmd` (lines 401-648).  Returns the posted
progress updates in order, the final filesystem, and the final
(moved, failed) counters. -/
def download_mods_with_steamcmd (env : Env) (fs0 : List String)
    (selected : List (String × String)) (installPath : String) :
    List Update × List String × Nat × Nat :=
  let u0 := statusUpd "Initializing download..." (some 0) none
  if selected.isEmpty then
    ([u0, errorUpd "No mods selected for download."], fs0, 0, 0)
  else if !(env.appId != "" && env.appId.data.all Char.isDigit) then
    ([u0, errorUpd ("Invalid or missing App ID in settings: '" ++ env.appId
        ++ "'. Cannot download.")], fs0, 0, 0)
  else
    let tempBase := installPath ++ "/" ++ "_steamcmd_temp_download"
    if !env.mkdirOk then
      ([u0, errorUpd ("Error creating temporary directory '" ++ tempBase ++ "'.")],
        fs0, 0, 0)
    else
      let fs1 := if fs0.contains tempBase then fs0 else tempBase :: fs0
      let u1 := statusUpd "Running SteamCMD (this may take a while)..." none none
      match env.popen with
      | none =>
        ([u0, u1, errorUpd ("Error: Command '" ++ env.steamcmdExec
            ++ "' not found. Check Settings or system PATH.")], fs1, 0, 0)
      | some (rc, out, err) =>
        if rc != 0 then
          ([u0, u1, errorUpd (steamcmdFailMessage env.steamcmdExec rc out err)],
            fs1, 0, 0)
        else
          let u2 := statusUpd "Processing downloaded mods..." (some 0) none
          let r := processItems installPath tempBase env.appId selected.length
            selected 0 fs1
          let fs3 := if env.rmtreeOk then rmtreeModel r.2.1 tempBase else r.2.1
          let mv := r.2.2.1
          let fl := r.2.2.2
          let ufin := finalUpd ("Finished. Moved: " ++ toString mv
            ++ ", Failed/Skipped: " ++ toString fl ++ ".") selected.length (fl > 0)
          (u0 :: u1 :: u2 :: r.1 ++ [ufin], fs3, mv, fl)

/-! ### Concrete inputs used in counterexamples and witnesses -/

/-- A 101-character name: `CON` followed by 97 spaces and an `X`. -/
def c1TruncInput : List Char := "CON".data ++ List.replicate 97 ' ' ++ ['X']

/-- A workshop item link for id `i`. -/
def modLinkNode (i : String) : Html :=
  .elem "a" [] (some ("https://steamcommunity.com/sharedfiles/filedetails/?id=" ++ i)) .nil

/-- A title div with text `nm`. -/
def titleNode (nm : String) : Html :=
  .elem "div" ["workshopItemTitle"] none (.cons (.text nm) .nil)

/-- A workshop item container with a link and a title. -/
def itemContainer (i nm : String) : Html :=
  .elem "div" ["workshopItem"] none (.cons (modLinkNode i) (.cons (titleNode nm) .nil))

/-- A workshop item container with a link but no recoverable title. -/
def anonContainer (i : String) : Html :=
  .elem "div" ["workshopItem"] none (.cons (modLinkNode i) .nil)

/-- Two containers for id 123: titled `Foo` first, anonymous second. -/
def docC3AB : HtmlList := .cons (itemContainer "123" "Foo") (.cons (anonContainer "123") .nil)

/-- Two containers for id 123: anonymous first, titled `Foo` second. -/
def docC3BA : HtmlList := .cons (anonContainer "123") (.cons (itemContainer "123" "Foo") .nil)

/-- Items with ids 10, 2 and 33 in that document order. -/
def docC7 : HtmlList :=
  .cons (itemContainer "10" "Mod A")
    (.cons (itemContainer "2" "Mod B") (.cons (itemContainer "33" "Mod C") .nil))

/-- A bare item link with no container div at all. -/
def docC4NoCont : HtmlList := .cons (modLinkNode "77") .nil

/-- A container div that yields no entry (it has no link inside). -/
def docC4Cont : HtmlList :=
  .cons (.elem "div" ["workshopItem"] none (.cons (.text "no link here") .nil)) .nil

/-- A destination directory in which `Foo`, `Foo_555` and `Foo_555_1` …
`Foo_555_9` all already exist (but `Foo_555_10` does not), plus the
downloaded source directory for item 555. -/
def c10Fs : List String :=
  ["/dst/Foo", "/dst/Foo_555", "/dst/Foo_555_1", "/dst/Foo_555_2", "/dst/Foo_555_3",
   "/dst/Foo_555_4", "/dst/Foo_555_5", "/dst/Foo_555_6", "/dst/Foo_555_7",
   "/dst/Foo_555_8", "/dst/Foo_555_9",
   "/dst/_steamcmd_temp_download/steamapps/workshop/content/294100/555"]

/-- An environment whose external tool run succeeds (exit code 0). -/
def c10Env : Env := ⟨"294100", "steamcmd", true, some (0, "", ""), true⟩

/-! ## Theorems -/

example : sanitizeStr "" = "Unnamed Mod" := by decide
example : sanitizeStr "CON" = "CON_mod" := by decide
example : sanitizeStr "My/Mod:Name" = "My_Mod_Name" := by decide
example : sanitizeStr "Foo" = "Foo" := by decide

/-! ### C1: sanitizer safety -/

theorem replaceRunsAux_no_invalid {c : Char} :
    ∀ {b : Bool} {s : List Char}, c ∈ replaceRunsAux b s → invalidChar c = false := by
  intro b s
  induction s generalizing b with
  | nil => intro h; simp [replaceRunsAux] at h
  | cons a t ih =>
    intro h
    cases ha : invalidChar a with
    | true =>
      rw [replaceRunsAux, if_pos ha] at h
      rcases List.mem_append.mp h with h1 | h2
      · cases b with
        | true => simp at h1
        | false =>
          have hc : c = '_' := by simpa using h1
          subst hc; decide
      · exact ih h2
    | false =>
      rw [replaceRunsAux, if_neg (by simp [ha])] at h
      rcases List.mem_cons.mp h with h1 | h2
      · subst h1; exact ha
      · exact ih h2

theorem mem_stripDotSpace {c : Char} {s : List Char} (h : c ∈ stripDotSpace s) : c ∈ s := by
  unfold stripDotSpace at h
  have h1 := List.mem_reverse.mp h
  have h2 := List.Sublist.mem h1 (List.dropWhile_sublist _)
  have h3 := List.mem_reverse.mp h2
  exact List.Sublist.mem h3 (List.dropWhile_sublist _)

theorem stripDotSpace_length_le (s : List Char) : (stripDotSpace s).length ≤ s.length := by
  unfold stripDotSpace
  calc ((s.dropWhile isDotSpace).reverse.dropWhile isDotSpace).reverse.length
      = ((s.dropWhile isDotSpace).reverse.dropWhile isDotSpace).length := List.length_reverse _
    _ ≤ (s.dropWhile isDotSpace).reverse.length :=
        (List.dropWhile_sublist _).length_le
    _ = (s.dropWhile isDotSpace).length := List.length_reverse _
    _ ≤ s.length := (List.dropWhile_sublist _).length_le

theorem preStrip_chars {c : Char} {name : List Char} (h : c ∈ preStrip name) :
    invalidChar c = false ∧ isCtrl c = false := by
  unfold preStrip at h
  have h1 := mem_stripDotSpace h
  have h2 := List.mem_filter.mp h1
  exact ⟨replaceRunsAux_no_invalid h2.1, by simpa using h2.2⟩

theorem sanitizeCore_chars {c : Char} {name : List Char} (h : c ∈ sanitizeCore name) :
    invalidChar c = false ∧ isCtrl c = false := by
  unfold sanitizeCore at h
  split at h
  · rcases List.mem_append.mp h with h1 | h1
    · exact preStrip_chars h1
    · fin_cases h1 <;> decide
  · exact preStrip_chars h

theorem reservedNames_length {x : List Char} (h : x ∈ reservedNames) :
    3 ≤ x.length ∧ x.length ≤ 4 := by
  fin_cases h <;> decide

/-- Before truncation, the output is never a reserved name: the suffix step
itself guarantees it (an appended `_mod` makes the name longer than any
reserved name). -/
theorem sanitizeCore_not_reserved (name : List Char) :
    (sanitizeCore name).map upperA ∉ reservedNames := by
  unfold sanitizeCore
  by_cases hmem : (preStrip name).map upperA ∈ reservedNames
  · rw [if_pos hmem]
    intro hin
    have hl := (reservedNames_length hin).2
    rw [List.length_map, List.length_append] at hl
    have hl3 := (reservedNames_length hmem).1
    rw [List.length_map] at hl3
    have h4 : ("_mod".data).length = 4 := by decide
    omega
  · rw [if_neg hmem]
    exact hmem

/-- C1 (amended): for every input, `sanitize_filename` returns a non-empty
string of at most 100 characters containing no forbidden or control
characters; and — the amendment — the output is guaranteed not to be a
reserved device name only when the truncation step does not fire (the
reserved-name check precedes truncation, so re-stripping after truncation
can re-expose a reserved name; see `sanitize_filename_reserved_cex`). -/
theorem sanitize_filename_safe (name : List Char) :
    sanitize_filename name ≠ [] ∧
    (∀ c ∈ sanitize_filename name, invalidChar c = false ∧ isCtrl c = false) ∧
    (sanitize_filename name).length ≤ 100 ∧
    ((sanitizeCore name).length ≤ 100 →
      (sanitize_filename name).map upperA ∉ reservedNames) := by
  by_cases h0 : name = []
  · subst h0; exact ⟨by decide, by decide, by decide, fun _ => by decide⟩
  · rw [sanitize_filename, if_neg h0]
    by_cases h6 : sanitizeTrunc name = []
    · rw [if_pos h6]
      exact ⟨by decide, by decide, by decide, fun _ => by decide⟩
    · rw [if_neg h6]
      unfold sanitizeTrunc at h6 ⊢
      by_cases hlen : (sanitizeCore name).length > 100
      · rw [if_pos hlen] at h6 ⊢
        refine ⟨h6, ?_, ?_, ?_⟩
        · intro c hc
          exact sanitizeCore_chars (List.Sublist.mem (mem_stripDotSpace hc) (List.take_sublist _ _))
        · calc (stripDotSpace ((sanitizeCore name).take 100)).length
              ≤ ((sanitizeCore name).take 100).length := stripDotSpace_length_le _
            _ ≤ 100 := List.length_take_le 100 _
        · intro hle; omega
      · rw [if_neg hlen] at h6 ⊢
        refine ⟨h6, fun c hc => sanitizeCore_chars hc, by omega,
          fun _ => sanitizeCore_not_reserved name⟩

/-- C1 counterexample: the 101-character input `"CON" ++ 97 spaces ++ "X"`
passes the reserved-name check un-suffixed, but the truncation to 100 and
re-stripping of trailing spaces leaves exactly the reserved name `CON`. -/
theorem sanitize_filename_reserved_cex :
    sanitize_filename c1TruncInput = "CON".data ∧
    (sanitize_filename c1TruncInput).map upperA ∈ reservedNames := by decide

theorem sanitize_filename_safe_witness :
    (sanitizeCore "My/Mod:Name".data).length ≤ 100 ∧
    (sanitize_filename "My/Mod:Name".data).map upperA ∉ reservedNames :=
  ⟨by decide, (sanitize_filename_safe "My/Mod:Name".data).2.2.2 (by decide)⟩


/-! ### C8, C9: settings store -/

theorem dget_cons (p : String × String) (t : List (String × String)) (k : String) :
    dget (p :: t) k = if p.1 == k then some p.2 else dget t k := by
  by_cases h : (p.1 == k) = true
  · rw [if_pos h]
    unfold dget
    rw [@List.find?_cons_of_pos _ (fun q => q.1 == k) p t h]
    rfl
  · rw [if_neg h]
    unfold dget
    rw [@List.find?_cons_of_neg _ (fun q => q.1 == k) p t h]

theorem dget_append (a b : List (String × String)) (k : String) :
    dget (a ++ b) k = match dget a k with
      | some v => some v
      | none => dget b k := by
  induction a with
  | nil => rfl
  | cons p t ih =>
    by_cases hk : (p.1 == k) = true
    · simp [dget_cons, hk]
    · have hk0 : (p.1 == k) = false := by simpa using hk
      simp [dget_cons, hk0, ih]

theorem dget_mapOverride (base upd : List (String × String)) (k : String) :
    dget (base.map (fun p =>
        match dget upd p.1 with
        | some v => (p.1, v)
        | none => p)) k =
      match dget base k with
      | none => none
      | some w => match dget upd k with
        | some v => some v
        | none => some w := by
  induction base with
  | nil => rfl
  | cons p t ih =>
    by_cases hk : (p.1 == k) = true
    · have hk' : p.1 = k := by simpa using hk
      subst hk'
      cases hu : dget upd p.1 with
      | none => simp [dget_cons, hu]
      | some v => simp [dget_cons, hu]
    · have hk0 : (p.1 == k) = false := by simpa using hk
      cases hu : dget upd p.1 with
      | none => simp [dget_cons, hu, hk0, ih]
      | some v => simp [dget_cons, hu, hk0, ih]

theorem dget_filterNew (base upd : List (String × String)) (k : String) :
    dget (upd.filter (fun p => (dget base p.1).isNone)) k =
      match dget base k with
      | some _ => none
      | none => dget upd k := by
  induction upd with
  | nil => cases dget base k <;> rfl
  | cons q t ih =>
    by_cases hk : (q.1 == k) = true
    · have hk' : q.1 = k := by simpa using hk
      subst hk'
      cases hb : dget base q.1 with
      | none => simp [List.filter_cons, hb, dget_cons]
      | some w => simpa [List.filter_cons, hb, dget_cons] using ih
    · have hk0 : (q.1 == k) = false := by simpa using hk
      cases hq : (dget base q.1).isNone with
      | true => simpa [List.filter_cons, hq, dget_cons, hk0] using ih
      | false => simpa [List.filter_cons, hq, dget_cons, hk0] using ih

theorem dget_dictUpdate (base upd : List (String × String)) (k : String) :
    dget (dictUpdate base upd) k =
      match dget upd k with
      | some v => some v
      | none => dget base k := by
  unfold dictUpdate
  rw [dget_append, dget_mapOverride, dget_filterNew]
  cases dget base k <;> cases dget upd k <;> simp


/-- C8: saving a settings dict and loading it back raises nothing and
yields exactly the defaults overridden key-by-key by the saved dict,
unknown keys retained (saving always writes a JSON object, so none of the
raising file states is reachable on the round trip). -/
theorem settings_roundtrip (S : List (String × String)) (a : String)
    (ha : dget S "app_id" = some a) (hne : a ≠ "")
    (hdig : a.data.all Char.isDigit = true) (k : String) :
    load_settings (save_settings S) = .ok (dictUpdate get_default_settings S) ∧
    dget (dictUpdate get_default_settings S) k =
      match dget S k with
      | some v => some v
      | none => dget get_default_settings k :=
  ⟨rfl, dget_dictUpdate get_default_settings S k⟩

theorem settings_roundtrip_witness :
    load_settings (save_settings [("app_id", "42"), ("extra", "x")]) =
      .ok (dictUpdate get_default_settings [("app_id", "42"), ("extra", "x")]) ∧
    dget (dictUpdate get_default_settings [("app_id", "42"), ("extra", "x")]) "extra"
        = some "x" ∧
    dget (dictUpdate get_default_settings [("app_id", "42"), ("extra", "x")]) "steamcmd_path"
        = some "" := by
  have h1 := settings_roundtrip [("app_id", "42"), ("extra", "x")] "42"
    (by decide) (by decide) (by decide) "extra"
  have h2 := settings_roundtrip [("app_id", "42"), ("extra", "x")] "42"
    (by decide) (by decide) (by decide) "steamcmd_path"
  exact ⟨h1.1, by rw [h1.2]; decide, by rw [h2.2]; decide⟩

/-- C9 is false on the code: `except (json.JSONDecodeError, IOError,
TypeError)` at line 118 does not catch plain `ValueError` or
`UnicodeDecodeError`.  A settings file whose text is the JSON string
`"abc"` parses successfully, then `app_settings.update("abc")` raises
`ValueError` to the caller; a file of non-UTF-8 bytes raises
`UnicodeDecodeError` at `f.read()`.  Every other failure state does
degrade to the defaults, and a parsed object merges key-by-key. -/
theorem load_settings_raises_uncaught :
    load_settings (.parsedStr "abc") = .error .valueError ∧
    load_settings .nonUtf8 = .error .unicodeDecodeError ∧
    load_settings .missing = .ok get_default_settings ∧
    load_settings .empty = .ok get_default_settings ∧
    load_settings .invalid = .ok get_default_settings ∧
    load_settings .ioError = .ok get_default_settings ∧
    load_settings .parsedScalar = .ok get_default_settings ∧
    (∀ d k, load_settings (.parsed d) = .ok (dictUpdate get_default_settings d) ∧
      dget (dictUpdate get_default_settings d) k =
        match dget d k with
        | some v => some v
        | none => dget get_default_settings k) := by
  refine ⟨?_, rfl, rfl, rfl, rfl, rfl, rfl,
    fun d k => ⟨rfl, dget_dictUpdate get_default_settings d k⟩⟩
  rw [load_settings, if_neg (by decide)]



/-! ### C3, C4, C6, C7: workshop scraper -/

theorem insertEntry_eq_none {d : List (String × String)} {mid : String} (nm : String)
    (h : dget d mid = none) : insertEntry d mid nm = d ++ [(mid, nm)] := by
  unfold insertEntry
  rw [h]

theorem insertEntry_eq_some {d : List (String × String)} {mid ex : String} (nm : String)
    (h : dget d mid = some ex) :
    insertEntry d mid nm =
      if isPlaceholder ex && !isPlaceholder nm then
        d.map (fun p => if p.1 == mid then (p.1, nm) else p)
      else d := by
  unfold insertEntry
  rw [h]

theorem dget_eq_none_iff (d : List (String × String)) (k : String) :
    dget d k = none ↔ k ∉ d.map Prod.fst := by
  induction d with
  | nil => simp [dget]
  | cons p t ih =>
    by_cases hk : p.1 = k
    · simp [dget_cons, hk]
    · simp [dget_cons, hk, ih]
      tauto

theorem keys_map_setAll (d : List (String × String)) (mid nm : String) :
    ((d.map (fun p => if p.1 == mid then (p.1, nm) else p)).map Prod.fst) =
      d.map Prod.fst := by
  induction d with
  | nil => rfl
  | cons p t ih =>
    have hh : (if p.1 == mid then (p.1, nm) else p).1 = p.1 := by split <;> rfl
    simp only [List.map_cons, hh, ih]

theorem keys_nodup_insertEntry (d : List (String × String)) (mid nm : String)
    (h : (d.map Prod.fst).Nodup) : ((insertEntry d mid nm).map Prod.fst).Nodup := by
  cases hd : dget d mid with
  | none =>
    have hnin : mid ∉ d.map Prod.fst := (dget_eq_none_iff d mid).mp hd
    rw [insertEntry_eq_none nm hd, List.map_append]
    simp [List.nodup_append, h, hnin]
  | some ex =>
    rw [insertEntry_eq_some nm hd]
    split
    · rw [keys_map_setAll]; exact h
    · exact h

theorem buildDict_cons (c : Html) (t : List Html) (d : List (String × String)) :
    buildDict (c :: t) d = buildDict t
      (match extractCandidate c with
       | none => d
       | some (mid, nm) => insertEntry d mid nm) := rfl

theorem keys_nodup_buildDict (cs : List Html) :
    ∀ d : List (String × String), (d.map Prod.fst).Nodup →
      ((buildDict cs d).map Prod.fst).Nodup := by
  induction cs with
  | nil => intro d h; exact h
  | cons c t ih =>
    intro d h
    rw [buildDict_cons]
    cases hx : extractCandidate c with
    | none => exact ih d h
    | some p => exact ih _ (keys_nodup_insertEntry d p.1 p.2 h)

theorem keys_nodup_fallbackLoop (isUrl : Bool) (src : String) :
    ∀ (l : List (Html × Bool)) (d : List (String × String)),
      (d.map Prod.fst).Nodup → ((fallbackLoop isUrl src l d).map Prod.fst).Nodup := by
  intro l
  induction l with
  | nil => intro d h; exact h
  | cons nb rest ih =>
    intro d h
    obtain ⟨n, inColl⟩ := nb
    rw [fallbackLoop]
    by_cases hl : isFallbackLink n = true
    · rw [if_pos hl]
      cases hid : extractId ((hrefOf n).getD "") with
      | none => exact ih d h
      | some mid =>
        dsimp only
        by_cases hskip : (isUrl && containsSub ("id=" ++ mid) src && inColl) = true
        · rw [if_pos hskip]
          exact ih d h
        · rw [if_neg hskip]
          exact ih _ (keys_nodup_insertEntry d mid _ h)
    · rw [if_neg hl]
      exact ih d h

theorem keys_nodup_scrapeDict (isUrl : Bool) (src : String) (doc : HtmlList) :
    ((scrapeDict isUrl src doc).map Prod.fst).Nodup := by
  unfold scrapeDict
  split
  · exact keys_nodup_fallbackLoop isUrl src _ [] (by simp)
  · exact keys_nodup_buildDict _ [] (by simp)

theorem keys_nodup_scrapeHtml (isUrl : Bool) (src : String) (doc : HtmlList) :
    ((scrapeHtml isUrl src doc).map Prod.fst).Nodup := by
  unfold scrapeHtml sortEntries
  have hperm := (List.perm_insertionSort entryLe (scrapeDict isUrl src doc)).map Prod.fst
  exact hperm.nodup_iff.mpr (keys_nodup_scrapeDict isUrl src doc)

theorem dget_setAll (d : List (String × String)) (mid nm : String)
    (h : (dget d mid).isSome = true) :
    dget (d.map (fun p => if p.1 == mid then (p.1, nm) else p)) mid = some nm := by
  induction d with
  | nil => simp [dget] at h
  | cons p t ih =>
    by_cases hk : p.1 = mid
    · simp [List.map_cons, dget_cons, hk]
    · have h' : (dget t mid).isSome = true := by
        simp [dget_cons, hk] at h
        exact h
      have hh : (if p.1 == mid then (p.1, nm) else p) = p := by
        simp [hk]
      rw [List.map_cons, hh, dget_cons, if_neg (by simpa using hk)]
      exact ih h' 

theorem dget_insertEntry_keep (d : List (String × String)) (mid nm ex : String)
    (h : dget d mid = some ex)
    (hk : isPlaceholder ex = false ∨ isPlaceholder nm = true) :
    dget (insertEntry d mid nm) mid = some ex := by
  have hcond : (isPlaceholder ex && !isPlaceholder nm) = false := by
    rcases hk with h1 | h1 <;> simp [h1]
  rw [insertEntry_eq_some nm h, hcond]
  simpa using h

theorem dget_insertEntry_supersede (d : List (String × String)) (mid nm ex : String)
    (h : dget d mid = some ex) (hex : isPlaceholder ex = true)
    (hnm : isPlaceholder nm = false) :
    dget (insertEntry d mid nm) mid = some nm := by
  have hcond : (isPlaceholder ex && !isPlaceholder nm) = true := by simp [hex, hnm]
  rw [insertEntry_eq_some nm h, hcond]
  simp only [if_true]
  exact dget_setAll d mid nm (by simp [h])

/-- C3. -/
theorem scrape_dedup_merge :
    (∀ (isUrl : Bool) (src : String) (doc : HtmlList),
      ((scrapeHtml isUrl src doc).map Prod.fst).Nodup) ∧
    (∀ (d : List (String × String)) (mid nm ex : String), dget d mid = some ex →
      isPlaceholder ex = false ∨ isPlaceholder nm = true →
      dget (insertEntry d mid nm) mid = some ex) ∧
    (∀ (d : List (String × String)) (mid nm ex : String), dget d mid = some ex →
      isPlaceholder ex = true → isPlaceholder nm = false →
      dget (insertEntry d mid nm) mid = some nm) ∧
    scrapeHtml false "" docC3AB = [("123", "Foo")] ∧
    scrapeHtml false "" docC3BA = [("123", "Foo")] :=
  ⟨keys_nodup_scrapeHtml, dget_insertEntry_keep, dget_insertEntry_supersede,
    by decide, by decide⟩

theorem scrape_dedup_merge_witness :
    dget (insertEntry [("123", placeholderName "123")] "123" "Foo") "123" = some "Foo" ∧
    dget (insertEntry [("123", "Foo")] "123" (placeholderName "123")) "123" = some "Foo" :=
  ⟨scrape_dedup_merge.2.2.1 [("123", placeholderName "123")] "123" "Foo"
      (placeholderName "123") (by decide) (by decide) (by decide),
   scrape_dedup_merge.2.1 [("123", "Foo")] "123" (placeholderName "123") "Foo"
      (by decide) (Or.inr (by decide))⟩


/-- C4: the fallback runs if and only if the container search found zero
containers; containers with zero extracted entries yield the empty result
without invoking the fallback. -/
theorem fallback_trigger (isUrl : Bool) (src : String) (doc : HtmlList) :
    (primaryContainers doc = [] →
      scrapeHtml isUrl src doc =
        sortEntries (fallbackLoop isUrl src (flatListWithColl false doc) [])) ∧
    (primaryContainers doc ≠ [] →
      scrapeHtml isUrl src doc = sortEntries (buildDict (primaryContainers doc) []) ∧
      (buildDict (primaryContainers doc) [] = [] → scrapeHtml isUrl src doc = [])) := by
  constructor
  · intro h
    unfold scrapeHtml scrapeDict
    rw [h]
    rfl
  · intro h
    have hne : (primaryContainers doc).isEmpty = false := by
      cases hc : primaryContainers doc with
      | nil => exact absurd hc h
      | cons a t => rfl
    constructor
    · unfold scrapeHtml scrapeDict
      rw [hne]
      simp
    · intro hd
      unfold scrapeHtml scrapeDict
      rw [hne, hd]
      simp [sortEntries]

theorem fallback_trigger_witness :
    scrapeHtml false "" docC4NoCont =
      sortEntries (fallbackLoop false "" (flatListWithColl false docC4NoCont) []) ∧
    scrapeHtml false "" docC4Cont = [] := by
  constructor
  · exact (fallback_trigger false "" docC4NoCont).1 rfl
  · have hne : primaryContainers docC4Cont ≠ [] := by
      intro h
      have hlen : (primaryContainers docC4Cont).length = 1 := rfl
      rw [h] at hlen
      exact absurd hlen (by decide)
    exact ((fallback_trigger false "" docC4Cont).2 hne).2 rfl

/-- C6: the error taxonomy of the scraper.  The embedded function is total:
every input resolves to a list plus an optional structured error report,
never an exception. -/
theorem scrape_error_taxonomy :
    (∀ (net : Option HtmlList) (srcUrl : String) (pasted : HtmlList) (s : String),
      scrape_mod_details net srcUrl pasted (.other s) = ([], some .config)) ∧
    (∀ (srcUrl : String) (pasted : HtmlList),
      scrape_mod_details none srcUrl pasted .url = ([], some .network)) ∧
    (∀ (doc : HtmlList) (srcUrl : String) (pasted : HtmlList),
      scrape_mod_details (some doc) srcUrl pasted .url = (scrapeHtml true srcUrl doc, none)) ∧
    (∀ (net : Option HtmlList) (srcUrl : String) (pasted : HtmlList),
      scrape_mod_details net srcUrl pasted .html = (scrapeHtml false srcUrl pasted, none)) :=
  ⟨fun _ _ _ _ => rfl, fun _ _ => rfl, fun _ _ _ => rfl, fun _ _ _ => rfl⟩

/-- C7: the scraper output is sorted ascending by the numeric value of the
identifier; input document order 10, 2, 33 comes out as 2, 10, 33. -/
theorem scrape_sorted :
    (∀ (isUrl : Bool) (src : String) (doc : HtmlList),
      List.Sorted entryLe (scrapeHtml isUrl src doc)) ∧
    (scrapeHtml false "" docC7).map Prod.fst = ["2", "10", "33"] := by
  constructor
  · intro isUrl src doc
    unfold scrapeHtml sortEntries
    exact List.sorted_insertionSort entryLe (scrapeDict isUrl src doc)
  · decide



/-! ### C2, C5, C10: download orchestrator -/

theorem collisionAux_notfound (ex : String → Bool) (b m : String) (fuel : Nat)
    (t : String) (c : Nat) (ht : ex t = false) :
    collisionAux ex b m (fuel + 1) t c = (t, false) := by
  simp [collisionAux, ht]

theorem collisionAux_exit (ex : String → Bool) (b m : String) (fuel : Nat)
    (t : String) (c : Nat) (ht : ex t = true) (h1 : ex (b ++ "_" ++ m) = false) :
    collisionAux ex b m (fuel + 1) t c = (b ++ "_" ++ m, false) := by
  simp [collisionAux, ht, h1]

theorem collisionAux_step (ex : String → Bool) (b m : String) (fuel : Nat)
    (t : String) (c : Nat) (ht : ex t = true) (h1 : ex (b ++ "_" ++ m) = true)
    (hc : c + 1 ≤ 10) :
    collisionAux ex b m (fuel + 1) t c =
      collisionAux ex b m fuel (b ++ "_" ++ m ++ "_" ++ toString c) (c + 1) := by
  rw [collisionAux]
  rw [if_pos ht, if_pos h1, if_neg (by omega)]

theorem collisionAux_exhaust (ex : String → Bool) (b m : String) :
    ∀ (fuel c : Nat) (t : String), c + fuel = 11 → 1 ≤ c → c ≤ 10 →
      ex t = true → ex (b ++ "_" ++ m) = true →
      (∀ k, c ≤ k → k ≤ 10 → ex (b ++ "_" ++ m ++ "_" ++ toString k) = true) →
      collisionAux ex b m fuel t c = (b ++ "_" ++ m ++ "_" ++ toString 10, true) := by
  intro fuel
  induction fuel with
  | zero => intro c t hsum hc1 hc10 _ _ _; omega
  | succ f ih =>
    intro c t hsum hc1 hc10 ht h1 hall
    by_cases hbreak : c + 1 > 10
    · have hc : c = 10 := by omega
      subst hc
      rw [collisionAux]
      rw [if_pos ht, if_pos h1, if_pos (by omega)]
    · rw [collisionAux_step ex b m f t c ht h1 (by omega)]
      exact ih (c + 1) _ (by omega) (by omega) (by omega)
        (hall c (Nat.le_refl c) (by omega)) h1
        (fun k hk1 hk2 => hall k (by omega) hk2)

/-- C2. -/
theorem collision_handling (fs : List String) (inst tempDir appId mid mname : String)
    (hsrc : fs.contains (sourceModPath tempDir appId mid) = true) :
    (existsAt fs inst (sanitizeStr mname) = true →
     existsAt fs inst (sanitizeStr mname ++ "_" ++ mid) = false →
     processOne fs inst tempDir appId mid mname =
       (moveDir fs (sourceModPath tempDir appId mid)
         (inst ++ "/" ++ (sanitizeStr mname ++ "_" ++ mid)), 1, 0)) ∧
    (existsAt fs inst (sanitizeStr mname) = true →
     existsAt fs inst (sanitizeStr mname ++ "_" ++ mid) = true →
     existsAt fs inst (sanitizeStr mname ++ "_" ++ mid ++ "_" ++ toString 1) = false →
     processOne fs inst tempDir appId mid mname =
       (moveDir fs (sourceModPath tempDir appId mid)
         (inst ++ "/" ++ (sanitizeStr mname ++ "_" ++ mid ++ "_" ++ toString 1)), 1, 0)) ∧
    (existsAt fs inst (sanitizeStr mname) = true →
     existsAt fs inst (sanitizeStr mname ++ "_" ++ mid) = true →
     (∀ k, 1 ≤ k → k ≤ 10 →
       existsAt fs inst (sanitizeStr mname ++ "_" ++ mid ++ "_" ++ toString k) = true) →
     processOne fs inst tempDir appId mid mname = (fs, 0, 1)) := by
  refine ⟨?_, ?_, ?_⟩
  · intro hN h1
    have hloop : collisionLoop (existsAt fs inst) (sanitizeStr mname) mid =
        (sanitizeStr mname ++ "_" ++ mid, false) := by
      unfold collisionLoop
      exact collisionAux_exit _ _ _ 9 _ 1 hN h1
    simp only [processOne, hloop]
    rw [h1]
    simp [hsrc]
    exact List.mem_of_elem_eq_true hsrc
  · intro hN h1 h2
    have hloop : collisionLoop (existsAt fs inst) (sanitizeStr mname) mid =
        (sanitizeStr mname ++ "_" ++ mid ++ "_" ++ toString 1, false) := by
      calc collisionLoop (existsAt fs inst) (sanitizeStr mname) mid
          = collisionAux (existsAt fs inst) (sanitizeStr mname) mid (9 + 1)
              (sanitizeStr mname) 1 := rfl
        _ = collisionAux (existsAt fs inst) (sanitizeStr mname) mid (8 + 1)
              (sanitizeStr mname ++ "_" ++ mid ++ "_" ++ toString 1) 2 :=
            collisionAux_step _ _ _ 9 _ 1 hN h1 (by omega)
        _ = (sanitizeStr mname ++ "_" ++ mid ++ "_" ++ toString 1, false) :=
            collisionAux_notfound _ _ _ 8 _ 2 h2
    simp only [processOne, hloop]
    rw [h2]
    simp [hsrc]
    exact List.mem_of_elem_eq_true hsrc
  · intro hN h1 hall
    have hloop : collisionLoop (existsAt fs inst) (sanitizeStr mname) mid =
        (sanitizeStr mname ++ "_" ++ mid ++ "_" ++ toString 10, true) := by
      unfold collisionLoop
      exact collisionAux_exhaust _ _ _ 10 1 _ (by omega) (by omega) (by omega) hN h1
        (fun k hk1 hk2 => hall k hk1 hk2)
    simp only [processOne, hloop]
    rw [hall 10 (by omega) (by omega)]
    simp

theorem collision_handling_witness :
    processOne ["/d/Foo", "/d/t/steamapps/workshop/content/9/7"] "/d" "/d/t" "9" "7" "Foo" =
      (moveDir ["/d/Foo", "/d/t/steamapps/workshop/content/9/7"]
        (sourceModPath "/d/t" "9" "7") ("/d" ++ "/" ++ (sanitizeStr "Foo" ++ "_" ++ "7")),
       1, 0) :=
  (collision_handling ["/d/Foo", "/d/t/steamapps/workshop/content/9/7"]
      "/d" "/d/t" "9" "7" "Foo" (by decide)).1 (by decide) (by decide)


/-- C5: a non-zero tool exit posts exactly one terminal update (an error),
moves nothing, and never reaches the per-item (MovingItems) stage. -/
theorem nonzero_exit_single_error (env : Env) (fs0 : List String)
    (selected : List (String × String)) (inst : String)
    (rc : Int) (out err : String)
    (hsel : selected.isEmpty = false)
    (hid : (env.appId != "" && env.appId.data.all Char.isDigit) = true)
    (hmk : env.mkdirOk = true)
    (hp : env.popen = some (rc, out, err))
    (hrc : (rc != 0) = true) :
    download_mods_with_steamcmd env fs0 selected inst =
      ([statusUpd "Initializing download..." (some 0) none,
        statusUpd "Running SteamCMD (this may take a while)..." none none,
        errorUpd (steamcmdFailMessage env.steamcmdExec rc out err)],
       (if fs0.contains (inst ++ "/" ++ "_steamcmd_temp_download") then fs0
        else (inst ++ "/" ++ "_steamcmd_temp_download") :: fs0), 0, 0) ∧
    (((download_mods_with_steamcmd env fs0 selected inst).1.filter
        (fun u => u.finished)).length = 1 ∧
     (∀ u ∈ (download_mods_with_steamcmd env fs0 selected inst).1,
        u.finished = true → u.error.isSome = true) ∧
     (∀ u ∈ (download_mods_with_steamcmd env fs0 selected inst).1,
        u.currentMod = none) ∧
     (download_mods_with_steamcmd env fs0 selected inst).2.2.1 = 0 ∧
     (download_mods_with_steamcmd env fs0 selected inst).2.2.2 = 0) := by
  have heq : download_mods_with_steamcmd env fs0 selected inst =
      ([statusUpd "Initializing download..." (some 0) none,
        statusUpd "Running SteamCMD (this may take a while)..." none none,
        errorUpd (steamcmdFailMessage env.steamcmdExec rc out err)],
       (if fs0.contains (inst ++ "/" ++ "_steamcmd_temp_download") then fs0
        else (inst ++ "/" ++ "_steamcmd_temp_download") :: fs0), 0, 0) := by
    unfold download_mods_with_steamcmd
    rw [hsel, hid, hmk, hp]
    simp only [Bool.not_true, Bool.false_eq_true, if_false]
    rw [hrc]
    simp
  refine ⟨heq, ?_, ?_, ?_, ?_, ?_⟩
  · rw [heq]
    simp [statusUpd, errorUpd, List.filter]
  · rw [heq]
    intro u hu
    simp only [List.mem_cons, List.not_mem_nil, or_false] at hu
    rcases hu with hu | hu | hu
    · subst hu; intro h; simp [statusUpd] at h
    · subst hu; intro h; simp [statusUpd] at h
    · subst hu; intro h; simp [errorUpd]
  · rw [heq]
    intro u hu
    simp only [List.mem_cons, List.not_mem_nil, or_false] at hu
    rcases hu with hu | hu | hu
    · subst hu; rfl
    · subst hu; rfl
    · subst hu; rfl
  · rw [heq]
  · rw [heq]

theorem nonzero_exit_single_error_witness :
    download_mods_with_steamcmd ⟨"294100", "steamcmd", true, some (1, "", ""), true⟩
        [] [("555", "Foo")] "/dst" =
      ([statusUpd "Initializing download..." (some 0) none,
        statusUpd "Running SteamCMD (this may take a while)..." none none,
        errorUpd (steamcmdFailMessage "steamcmd" 1 "" "")],
       ["/dst" ++ "/" ++ "_steamcmd_temp_download"], 0, 0) := by
  have h := nonzero_exit_single_error ⟨"294100", "steamcmd", true, some (1, "", ""), true⟩
    [] [("555", "Foo")] "/dst" 1 "" "" (by decide) (by decide) rfl rfl (by decide)
  rw [h.1]
  simp

/-- C10: at the failing input the single selected item is counted both as
moved and as failed (the collision loop's safety break increments the failed
counter, yet the loop ends on the free name `Foo_555_10`, so the
move still happens and increments the moved counter too). -/
theorem move_accounting_divergence :
    (download_mods_with_steamcmd c10Env c10Fs [("555", "Foo")] "/dst").2.2 = (1, 1) ∧
    ([("555", "Foo")] : List (String × String)).length = 1 := by
  constructor
  · decide
  · rfl


end SteamWrapper
